import Mathlib

/-!
Verification of the curriculum → training-record generators of the
`aitutorial` repository (`src/SLM/dsa-data-gen.py`, variant A, and
`src/SLM/dsa-data-generator.py`, variant B).

The Python programs are shallowly embedded: JSON dictionaries become
structures whose optional keys are `Option` fields, `dict.get(k, d)`
becomes `Option.getD`, the raising subscript access `d[k]` becomes a
`pyGet` returning `Except` (a `KeyError`), Python f-strings become
`String` concatenation, and `str.strip()` becomes `pyStrip` (drop
whitespace from both ends).  The drivers' try/except blocks become total
functions into a `DriverOutcome` that records what was written and what
was printed.
-/

namespace DSAGen

/-- Python `str.strip()` with no arguments: remove leading and trailing
whitespace characters. -/
def pyStrip (s : String) : String :=
  ⟨((s.data.dropWhile Char.isWhitespace).reverse.dropWhile Char.isWhitespace).reverse⟩

/-- Python `d[k]` on an optional field: the value, or a `KeyError` when
the key is absent. -/
def pyGet {α : Type} (field : Option α) (key : String) : Except String α :=
  match field with
  | some v => Except.ok v
  | none => Except.error ("KeyError: \x27" ++ key ++ "\x27")

/-- A JSON object of the output: an insertion-ordered list of
key/value pairs (all values in these programs are strings). -/
abbrev PyRec := List (String × String)

/-- Element of `code_examples`: `code` is accessed with `[]` in variant B
(required there), `output` with `.get(..., "N/A")`. -/
structure CodeExample where
  code : Option String
  output : Option String
deriving Repr, DecidableEq

/-- Element of `videos`: both fields are accessed with `[]` in variant B. -/
structure VideoRef where
  title : Option String
  youtube_url : Option String
deriving Repr, DecidableEq

/-- A curriculum topic; every key may be absent in the input JSON. -/
structure Topic where
  title : Option String
  content : Option String
  key_points : Option (List String)
  code_examples : Option (List CodeExample)
  videos : Option (List VideoRef)
deriving Repr, DecidableEq

/-- A curriculum module: a title and a list of topics. -/
structure Module where
  title : Option String
  topics : Option (List Topic)
deriving Repr, DecidableEq

/-- The input course document. -/
structure Curriculum where
  course_name : Option String
  modules : Option (List Module)
deriving Repr, DecidableEq

/-- One entry of variant A's `EMOTIONS` configuration list. -/
structure EmotionCfg where
  emotion : String
  tone : String
deriving Repr, DecidableEq

/-- The `EMOTIONS` list of `dsa-data-gen.py`. -/
def EMOTIONS : List EmotionCfg :=
  [⟨"confused", "calm, slow, reassuring"⟩,
   ⟨"frustrated", "supportive, motivating"⟩,
   ⟨"neutral", "clear, structured"⟩,
   ⟨"confident", "challenging, interview-focused"⟩]

/-- Literal template text of `build_teaching_response` between
`{topic_title}` of the Question line and `{topic_content}`. -/
def A_chunk1 : String := "\n\nACKNOWLEDGEMENT:\nIt\x27s completely okay to be at this stage. Let\x27s understand this step by step.\n\nDEFINITION:\n"

/-- Literal template text between `{topic_content}` and the
`{topic_title}` occurrence inside the code comment. -/
def A_chunk2 : String := "\n\nINTUITION / REAL-WORLD ANALOGY:\nThink of this concept like organizing items efficiently so you can find them quickly.\n\nSTEP-BY-STEP EXPLANATION:\n1. Understand the problem this concept solves.\n2. Learn how it works internally.\n3. Apply it efficiently in real problems.\n\nASCII DIAGRAM:\nInput  ->  Processing  ->  Output\n\nCODE (C++):\n```cpp\n// Example implementation\n#include <iostream>\nusing namespace std;\n\nint main() \x7b\n    // "

/-- Literal template text between the code-comment `{topic_title}` and
the `{topic_title}` occurrence inside the `cout` string. -/
def A_chunk3 : String := " implementation\n    cout << \"Hello "

/-- Literal template text after the last `{topic_title}`, up to the end
of the template. -/
def A_chunk4 : String := "\" << endl;\n    return 0;\n\x7d\n```\n\nTIME COMPLEXITY:\nO(n) - Linear time complexity\n\nSPACE COMPLEXITY:\nO(1) - Constant space complexity\n\nKEY TAKEAWAYS:\n• Understand the core concept\n• Practice with examples\n• Apply in problem-solving"

/-- The function `build_teaching_response(topic_title, topic_content,
emotion_cfg)` of `dsa-data-gen.py`: the interpolated f-string template, followed by
`.strip()`. -/
def build_teaching_response (topic_title topic_content : String) (emotion_cfg : EmotionCfg) : String :=
  pyStrip ("Student Emotion: " ++ emotion_cfg.emotion
    ++ "\nTutor Tone: " ++ emotion_cfg.tone
    ++ "\n\nQuestion: Explain " ++ topic_title
    ++ A_chunk1 ++ topic_content
    ++ A_chunk2 ++ topic_title
    ++ A_chunk3 ++ topic_title
    ++ A_chunk4)

/-- The fallback used by variant A when a topic lacks `content`. -/
def topic_content_default : String := "This is an important Data Structures and Algorithms concept."

/-- The dictionary appended by variant A's inner `for emotion_cfg in
EMOTIONS` loop body, with its keys in insertion order. -/
def recordA (module_title : String) (topic : Topic) (emotion_cfg : EmotionCfg) : PyRec :=
  let topic_title := topic.title.getD "Topic"
  let topic_content := topic.content.getD topic_content_default
  [("subject", "DSA"),
   ("module", module_title),
   ("topic", topic_title),
   ("emotion", emotion_cfg.emotion),
   ("text", build_teaching_response topic_title topic_content emotion_cfg)]

/-- The records variant A appends for one topic: one per entry of
`EMOTIONS`, in list order. -/
def topicRecordsA (module_title : String) (topic : Topic) : List PyRec :=
  EMOTIONS.map (recordA module_title topic)

/-- The records variant A appends while processing one module:
`module.get("topics", [])` iterated in order. -/
def moduleRecordsA (module : Module) : List PyRec :=
  ((module.topics.getD []).map (topicRecordsA (module.title.getD "Module"))).flatten

/-- The function `generate_training_data` of `dsa-data-gen.py` (after the load):
iterate `course.get("modules", [])` in order, accumulating the records. -/
def generate_training_data_A (course : Curriculum) : List PyRec :=
  ((course.modules.getD []).map moduleRecordsA).flatten

/-- The course name printed by variant A:
`course.get('course_name', 'DSA Course')`. -/
def courseNameForPrintA (course : Curriculum) : String :=
  course.course_name.getD "DSA Course"

/-- Total number of topics of a curriculum, summed over the modules. -/
def totalTopics (course : Curriculum) : Nat :=
  ((course.modules.getD []).map (fun m => (m.topics.getD []).length)).sum

/-- Variant B's `for code_ex in topic['code_examples']` loop: one record
per example in order; `code_ex['code']` may raise, `output` defaults to
`"N/A"`. -/
def codeRecordsB (topic_title : String) : List CodeExample → Except String (List PyRec)
  | [] => Except.ok []
  | code_ex :: rest => do
    let code ← pyGet code_ex.code "code"
    let r : PyRec := [("text", "Question: Show me code example for " ++ topic_title
      ++ "\nAnswer:\n```cpp\n" ++ code ++ "\n```\nOutput: " ++ code_ex.output.getD "N/A")]
    let rs ← codeRecordsB topic_title rest
    pure (r :: rs)

/-- Variant B's `for video in topic['videos']` loop: one record per
video in order; `video['title']` and `video['youtube_url']` may raise. -/
def videoRecordsB (topic_title : String) : List VideoRef → Except String (List PyRec)
  | [] => Except.ok []
  | video :: rest => do
    let vtitle ← pyGet video.title "title"
    let vurl ← pyGet video.youtube_url "youtube_url"
    let r : PyRec := [("text", "Question: Where can I learn about " ++ topic_title
      ++ "?\nAnswer: Watch this video: " ++ vtitle ++ " - " ++ vurl)]
    let rs ← videoRecordsB topic_title rest
    pure (r :: rs)

/-- Variant B's per-topic body (`dsa-data-generator.py`): the always
record (Type 1, `topic['title']` then `topic['content']`, both raising
accesses), then the key-points record when `topic.get('key_points')` is
truthy, then the code-example records when `topic.get('code_examples')`
is truthy, then the video records when `topic.get('videos')` is truthy. -/
def buildTopicRecordsB (topic : Topic) : Except String (List PyRec) := do
  let topic_title ← pyGet topic.title "title"
  let topic_content ← pyGet topic.content "content"
  let defRecord : PyRec := [("text", "Question: What is " ++ topic_title ++ "?\nAnswer: " ++ topic_content)]
  let kpRecords : List PyRec :=
    match topic.key_points with
    | some points =>
      if points.isEmpty then []
      else [[("text", "Question: What are the key points of " ++ topic_title ++ "?\nAnswer:\n"
        ++ String.intercalate "\n" (points.map (fun point => "• " ++ point)))]]
    | none => []
  let ceRecords ← match topic.code_examples with
    | some ces => if ces.isEmpty then pure [] else codeRecordsB topic_title ces
    | none => pure []
  let vRecords ← match topic.videos with
    | some vs => if vs.isEmpty then pure [] else videoRecordsB topic_title vs
    | none => pure []
  pure (defRecord :: (kpRecords ++ ceRecords ++ vRecords))

/-- Variant B's `for topic in module.get('topics', [])` loop. -/
def topicsRecordsB : List Topic → Except String (List PyRec)
  | [] => Except.ok []
  | topic :: rest => do
    let rs ← buildTopicRecordsB topic
    let rest' ← topicsRecordsB rest
    pure (rs ++ rest')

/-- Variant B's `for module in course.get('modules', [])` loop:
`module['title']` is a raising access (its value is otherwise unused). -/
def modulesRecordsB : List Module → Except String (List PyRec)
  | [] => Except.ok []
  | module :: rest => do
    let _module_title ← pyGet module.title "title"
    let rs ← topicsRecordsB (module.topics.getD [])
    let rest' ← modulesRecordsB rest
    pure (rs ++ rest')

/-- The function `generate_training_data` of `dsa-data-generator.py` (after the
load): `course['course_name']` is accessed first (in the progress
print), then the module loop runs. -/
def generate_training_data_B (course : Curriculum) : Except String (List PyRec) := do
  let _course_name ← pyGet course.course_name "course_name"
  modulesRecordsB (course.modules.getD [])

/-- Outcome of loading the fixed input file, the only external event of
either driver: the file is missing, it exists but `json.load` fails
with some message, or it parses into a curriculum. -/
inductive LoadResult where
  | missing : LoadResult
  | malformed : String → LoadResult
  | ok : Curriculum → LoadResult

/-- What a driver run leaves behind: the content written in full to the
output file (`none` when no complete write happened), whether the write
step was entered at all (`false` = the output path is untouched), the
error line printed (if any), and whether `traceback.print_exc()` ran. -/
structure DriverOutcome where
  written : Option (List PyRec)
  writeStarted : Bool
  errorPrinted : Option String
  tracebackPrinted : Bool
deriving Repr

/-- The Python message of the `FileNotFoundError` raised by
`open('dsa_course.json')` in variant B (no pre-check there). -/
def fnf_message : String := "[Errno 2] No such file or directory: \x27dsa_course.json\x27"

/-- Exceptions that can escape the load → build steps of variant A:
only a load failure (the missing-file case is pre-checked by
`os.path.exists` and returns early, raising nothing; the builder itself
uses `.get` everywhere and cannot raise). -/
def raisesA : LoadResult → Option String
  | .malformed msg => some msg
  | _ => none

/-- Exceptions that can escape the load → build steps of variant B: a
`FileNotFoundError` from `open`, a parse failure from `json.load`, or a
`KeyError` from the record builder. -/
def raisesB : LoadResult → Option String
  | .missing => some fnf_message
  | .malformed msg => some msg
  | .ok course =>
    match generate_training_data_B course with
    | .error msg => some msg
    | .ok _ => none

/-- The function `main` of `dsa-data-gen.py`: inside `try`, check existence (early
return with a message, no write), else load (a failure is caught by the
`except`, which prints `❌ ERROR: {e}` and calls
`traceback.print_exc()`), build, and only then write.  `writeError`
models `save_training_data` raising (e.g. an `IOError`), which can only
happen once the write step has been entered. -/
def mainA (writeError : Option String) (input : LoadResult) : DriverOutcome :=
  match input with
  | .missing =>
    { written := none, writeStarted := false,
      errorPrinted := some "❌ ERROR: Input file \x27dsa_course.json\x27 not found!",
      tracebackPrinted := false }
  | .malformed msg =>
    { written := none, writeStarted := false,
      errorPrinted := some ("❌ ERROR: " ++ msg), tracebackPrinted := true }
  | .ok course =>
    match writeError with
    | some msg =>
      { written := none, writeStarted := true,
        errorPrinted := some ("❌ ERROR: " ++ msg), tracebackPrinted := true }
    | none =>
      { written := some (generate_training_data_A course), writeStarted := true,
        errorPrinted := none, tracebackPrinted := false }

/-- The `__main__` block of `dsa-data-generator.py`: inside `try`, load
(an `open`/`json.load` failure is caught by the `except`, which prints
`❌ ERROR: {e}` only), build (a `KeyError` is caught the same way), and
only then write.  `writeError` as in `mainA`. -/
def mainB (writeError : Option String) (input : LoadResult) : DriverOutcome :=
  match input with
  | .missing =>
    { written := none, writeStarted := false,
      errorPrinted := some ("❌ ERROR: " ++ fnf_message), tracebackPrinted := false }
  | .malformed msg =>
    { written := none, writeStarted := false,
      errorPrinted := some ("❌ ERROR: " ++ msg), tracebackPrinted := false }
  | .ok course =>
    match generate_training_data_B course with
    | .error msg =>
      { written := none, writeStarted := false,
        errorPrinted := some ("❌ ERROR: " ++ msg), tracebackPrinted := false }
    | .ok recs =>
      match writeError with
      | some msg =>
        { written := none, writeStarted := true,
          errorPrinted := some ("❌ ERROR: " ++ msg), tracebackPrinted := false }
      | none =>
        { written := some recs, writeStarted := true,
          errorPrinted := none, tracebackPrinted := false }

/-- Variant A's load/build prefix fails: the input file is missing
(detected by the `os.path.exists` check) or `json.load` fails; the
builder itself only uses `.get` and cannot fail. -/
def loadBuildFailsA : LoadResult → Bool
  | .missing => true
  | .malformed _ => true
  | .ok _ => false

/-- Variant B's load/build prefix fails: `open`/`json.load` fails, or
the record builder raises a `KeyError`. -/
def loadBuildFailsB : LoadResult → Bool
  | .missing => true
  | .malformed _ => true
  | .ok course => (generate_training_data_B course).toOption.isNone

/-- Prefix test on character lists (used by the substring check). -/
def listIsPrefixB : List Char → List Char → Bool
  | [], _ => true
  | _ :: _, [] => false
  | a :: as, b :: bs => a == b && listIsPrefixB as bs

/-- Substring occurrence test on character lists. -/
def listContainsSub (needle : List Char) : List Char → Bool
  | [] => needle.isEmpty
  | c :: rest => listIsPrefixB needle (c :: rest) || listContainsSub needle rest

/-- Executable substring test, Python `needle in hay` for strings. -/
def strContainsSub (hay needle : String) : Bool :=
  listContainsSub needle.data hay.data

/-- The single topic of the spec's concrete scenario. -/
def arraysTopic : Topic :=
  { title := some "Arrays", content := some "A sequence of elements.",
    key_points := none, code_examples := none, videos := none }

/-- The single module of the spec's concrete scenario. -/
def m1Module : Module := { title := some "M1", topics := some [arraysTopic] }

/-- The curriculum of the spec's concrete scenario:
`{"course_name":"DSA","modules":[{"title":"M1","topics":[{"title":"Arrays","content":"A sequence of elements."}]}]}`. -/
def scenarioCurriculum : Curriculum :=
  { course_name := some "DSA", modules := some [m1Module] }

/-- Projection of a variant-A record onto its `module`, `topic` and
`emotion` values, used to state ordering properties. -/
def projMTE (r : PyRec) : Option String × Option String × Option String :=
  (List.lookup "module" r, List.lookup "topic" r, List.lookup "emotion" r)

/-- The record list §4.3 of the spec describes for one topic of variant
B (spec-side description, to be compared with `buildTopicRecordsB`):
the definition record, then a key-points record when `key_points` is
present and non-empty, then one record per code example in input order,
then one record per video in input order. -/
def specTopicRecordsB (topic : Topic) (topic_title topic_content : String) : List PyRec :=
  [("text", "Question: What is " ++ topic_title ++ "?\nAnswer: " ++ topic_content)] ::
  ((match topic.key_points with
    | some points =>
      if points.isEmpty then []
      else [[("text", "Question: What are the key points of " ++ topic_title ++ "?\nAnswer:\n"
        ++ String.intercalate "\n" (points.map (fun point => "• " ++ point)))]]
    | none => []) ++
   (topic.code_examples.getD []).map (fun ce =>
     [("text", "Question: Show me code example for " ++ topic_title
       ++ "\nAnswer:\n```cpp\n" ++ ce.code.getD "" ++ "\n```\nOutput: " ++ ce.output.getD "N/A")]) ++
   (topic.videos.getD []).map (fun v =>
     [("text", "Question: Where can I learn about " ++ topic_title
       ++ "?\nAnswer: Watch this video: " ++ v.title.getD "" ++ " - " ++ v.youtube_url.getD "")]))

/-- Some field that variant B reads with a raising `[]` access on every
run (the course name, a module title, or a topic title) is absent. -/
def missingRequiredB (course : Curriculum) : Bool :=
  course.course_name.isNone
    || (course.modules.getD []).any (fun m =>
        m.title.isNone || (m.topics.getD []).any (fun t => t.title.isNone))

/-- A topic without `content` (variant A falls back, variant B raises). -/
def noContentTopic : Topic :=
  { title := some "Stacks", content := none,
    key_points := none, code_examples := none, videos := none }

/-- A one-topic curriculum whose only topic lacks `content`. -/
def noContentCurriculum : Curriculum :=
  { course_name := some "DSA",
    modules := some [{ title := some "M1", topics := some [noContentTopic] }] }

/-- A second no-`content` topic (for the per-topic builder). -/
def noContentTopic2 : Topic :=
  { title := some "Queues", content := none,
    key_points := none, code_examples := none, videos := none }

/-- A topic exercising every optional record type of variant B. -/
def richTopic : Topic :=
  { title := some "Linked Lists", content := some "Nodes chained by pointers.",
    key_points := some ["Dynamic size", "O(1) insert at head"],
    code_examples := some [{ code := some "Node* head;", output := some "ok" },
                           { code := some "head = nullptr;", output := none }],
    videos := some [{ title := some "LL basics", youtube_url := some "https://youtu.be/x" }] }

/-- Reduction of `bind` on a successful `Except` computation: it steps
into the continuation. -/
@[simp] theorem except_bind_ok {α β : Type} (a : α) (f : α → Except String β) :
    (Except.ok a >>= f) = f a := rfl

/-- Reduction of `bind` on a failed `Except` computation: it
short-circuits. -/
@[simp] theorem except_bind_error {α β : Type} (e : String) (f : α → Except String β) :
    ((Except.error e : Except String α) >>= f) = Except.error e := rfl

/-- The template text following the two header lines (and the newline
that ends the second of them); it depends on the topic only, not on the
emotion profile. -/
def A_body_after_header (topic_title topic_content : String) : String :=
  "\nQuestion: Explain " ++ topic_title
    ++ A_chunk1 ++ topic_content
    ++ A_chunk2 ++ topic_title
    ++ A_chunk3 ++ topic_title
    ++ A_chunk4

/-- The function `dropWhile` is the identity on a list whose head fails
the predicate. -/
theorem dropWhile_eq_self_of_head {p : Char → Bool} {l : List Char} {c : Char}
    (h : l.head? = some c) (hc : p c = false) : l.dropWhile p = l := by
  cases l with
  | nil => simp at h
  | cons a t =>
    simp only [List.head?_cons, Option.some.injEq] at h
    subst h
    simp [List.dropWhile_cons, hc]

/-- Python `strip()` is the identity on a string that starts and ends
with non-whitespace characters. -/
theorem pyStrip_eq_self {s : String} {c1 c2 : Char}
    (h1 : s.data.head? = some c1) (hw1 : c1.isWhitespace = false)
    (h2 : s.data.getLast? = some c2) (hw2 : c2.isWhitespace = false) :
    pyStrip s = s := by
  unfold pyStrip
  rw [dropWhile_eq_self_of_head h1 hw1]
  rw [dropWhile_eq_self_of_head (l := s.data.reverse) (by rw [List.head?_reverse]; exact h2) hw2]
  rw [List.reverse_reverse]

/-- The interpolated template starts with the letter `S` of
`Student Emotion:` for every topic and profile. -/
theorem A_raw_head (topic_title topic_content : String) (cfg : EmotionCfg) :
    ("Student Emotion: " ++ cfg.emotion
    ++ "\nTutor Tone: " ++ cfg.tone
    ++ "\n\nQuestion: Explain " ++ topic_title
    ++ A_chunk1 ++ topic_content
    ++ A_chunk2 ++ topic_title
    ++ A_chunk3 ++ topic_title
    ++ A_chunk4).data.head? = some 'S' := by
  have hS : "Student Emotion: ".data.head? = some 'S' := rfl
  simp only [String.data_append, List.head?_append, hS, Option.or_some]

/-- The interpolated template ends with the letter `g` of
`problem-solving` for every topic and profile. -/
theorem A_raw_getLast (topic_title topic_content : String) (cfg : EmotionCfg) :
    ("Student Emotion: " ++ cfg.emotion
    ++ "\nTutor Tone: " ++ cfg.tone
    ++ "\n\nQuestion: Explain " ++ topic_title
    ++ A_chunk1 ++ topic_content
    ++ A_chunk2 ++ topic_title
    ++ A_chunk3 ++ topic_title
    ++ A_chunk4).data.getLast? = some 'g' := by
  have h4 : A_chunk4.data.getLast? = some 'g' := rfl
  simp only [String.data_append, List.getLast?_append, h4, Option.or_some]

/-- The `.strip()` of `build_teaching_response` is a no-op, and the text
decomposes into the two substituted header lines followed by a body
that does not depend on the emotion profile. -/
theorem build_teaching_response_eq (topic_title topic_content : String) (cfg : EmotionCfg) :
    build_teaching_response topic_title topic_content cfg =
      "Student Emotion: " ++ cfg.emotion ++ "\nTutor Tone: " ++ cfg.tone ++ "\n"
        ++ A_body_after_header topic_title topic_content := by
  unfold build_teaching_response
  rw [pyStrip_eq_self (A_raw_head topic_title topic_content cfg) (by decide)
    (A_raw_getLast topic_title topic_content cfg) (by decide)]
  apply String.ext
  simp [A_body_after_header, String.data_append]

/-- Projections of the four records a topic yields in variant A: the
module title, the (possibly defaulted) topic title, and the four
emotion names in configuration order. -/
theorem topicRecordsA_proj (module_title : String) (topic : Topic) :
    (topicRecordsA module_title topic).map projMTE =
      ["confused", "frustrated", "neutral", "confident"].map
        (fun e => (some module_title, some (topic.title.getD "Topic"), some e)) := rfl

/-- A topic yields four records in variant A. -/
theorem topicRecordsA_length (module_title : String) (topic : Topic) :
    (topicRecordsA module_title topic).length = 4 := rfl

/-- Record count of one module in variant A. -/
theorem moduleRecordsA_length (m : Module) :
    (moduleRecordsA m).length = 4 * (m.topics.getD []).length := by
  unfold moduleRecordsA
  generalize m.topics.getD [] = ts
  induction ts with
  | nil => rfl
  | cons t ts ih =>
    simp only [List.map_cons, List.flatten_cons, List.length_append, ih,
      topicRecordsA_length, List.length_cons]
    omega

/-- Record projections of one module in variant A. -/
theorem moduleRecordsA_proj (m : Module) :
    (moduleRecordsA m).map projMTE =
      (m.topics.getD []).flatMap (fun t =>
        ["confused", "frustrated", "neutral", "confident"].map
          (fun e => (some (m.title.getD "Module"), some (t.title.getD "Topic"), some e))) := by
  unfold moduleRecordsA
  generalize m.topics.getD [] = ts
  induction ts with
  | nil => rfl
  | cons t ts ih =>
    simp only [List.map_cons, List.flatten_cons, List.map_append, ih,
      List.flatMap_cons, topicRecordsA_proj]

/-- Every record of variant A arises as `recordA` of some module title,
topic and emotion configuration. -/
theorem genA_mem_shape (c : Curriculum) (r : PyRec)
    (hr : r ∈ generate_training_data_A c) :
    ∃ mt t cfg, r = recordA mt t cfg := by
  unfold generate_training_data_A at hr
  obtain ⟨rs, hrs, hr2⟩ := List.mem_flatten.mp hr
  obtain ⟨m, _, rfl⟩ := List.mem_map.mp hrs
  unfold moduleRecordsA at hr2
  obtain ⟨rs2, hrs2, hr3⟩ := List.mem_flatten.mp hr2
  obtain ⟨t, _, rfl⟩ := List.mem_map.mp hrs2
  unfold topicRecordsA at hr3
  obtain ⟨cfg, _, rfl⟩ := List.mem_map.mp hr3
  exact ⟨_, _, _, rfl⟩

/-- Every record of variant A carries exactly the five keys in
insertion order and the constant subject. -/
theorem genA_all_keys (c : Curriculum) :
    ((generate_training_data_A c).all (fun r =>
      (r.map Prod.fst == ["subject", "module", "topic", "emotion", "text"])
        && (List.lookup "subject" r == some "DSA"))) = true := by
  rw [List.all_eq_true]
  intro r hr
  obtain ⟨mt, t, cfg, rfl⟩ := genA_mem_shape c r hr
  rfl

/-- The `recordA` for given coordinates is among variant A's output. -/
theorem recordA_mem_genA (c : Curriculum) (m : Module) (t : Topic) (cfg : EmotionCfg)
    (hm : m ∈ c.modules.getD []) (ht : t ∈ m.topics.getD []) (hcfg : cfg ∈ EMOTIONS) :
    recordA (m.title.getD "Module") t cfg ∈ generate_training_data_A c := by
  unfold generate_training_data_A
  refine List.mem_flatten.mpr ⟨moduleRecordsA m, List.mem_map_of_mem _ hm, ?_⟩
  unfold moduleRecordsA
  refine List.mem_flatten.mpr
    ⟨topicRecordsA (m.title.getD "Module") t, List.mem_map_of_mem _ ht, ?_⟩
  exact List.mem_map_of_mem _ hcfg

/-- Variant A's record count over a whole curriculum. -/
theorem genA_length (c : Curriculum) :
    (generate_training_data_A c).length = 4 * totalTopics c := by
  unfold generate_training_data_A totalTopics
  generalize c.modules.getD [] = ms
  induction ms with
  | nil => rfl
  | cons m ms ih =>
    simp only [List.map_cons, List.flatten_cons, List.length_append, ih,
      moduleRecordsA_length, List.sum_cons]
    omega

/-- Variant A's record projections over a whole curriculum. -/
theorem genA_proj (c : Curriculum) :
    (generate_training_data_A c).map projMTE =
      (c.modules.getD []).flatMap (fun m =>
        (m.topics.getD []).flatMap (fun t =>
          ["confused", "frustrated", "neutral", "confident"].map
            (fun e => (some (m.title.getD "Module"), some (t.title.getD "Topic"), some e)))) := by
  unfold generate_training_data_A
  generalize c.modules.getD [] = ms
  induction ms with
  | nil => rfl
  | cons m ms ih =>
    simp only [List.map_cons, List.flatten_cons, List.map_append, ih,
      List.flatMap_cons, moduleRecordsA_proj]

/-- C2: for every curriculum with T topics in total, variant A produces
exactly 4×T records, and the module/topic/emotion projections of the
output are the modules in input order, within each the topics in input
order, within each the four emotions in declared order (confused,
frustrated, neutral, confident). -/
theorem c2_variantA_count_and_order (c : Curriculum) :
    (generate_training_data_A c).length = 4 * totalTopics c ∧
    (generate_training_data_A c).map projMTE =
      (c.modules.getD []).flatMap (fun m =>
        (m.topics.getD []).flatMap (fun t =>
          ["confused", "frustrated", "neutral", "confident"].map
            (fun e => (some (m.title.getD "Module"), some (t.title.getD "Topic"), some e)))) :=
  ⟨genA_length c, genA_proj c⟩

/-- C4: for every topic and every emotion profile, the text of variant
A's builder is the two header lines with the profile's emotion name and
tone substituted, followed by a body `A_body_after_header` that does
not depend on the profile; hence the texts of any two profiles differ
only in those header lines. -/
theorem c4_body_independent_of_emotion (topic_title topic_content : String)
    (cfg1 cfg2 : EmotionCfg) :
    build_teaching_response topic_title topic_content cfg1 =
      "Student Emotion: " ++ cfg1.emotion ++ "\nTutor Tone: " ++ cfg1.tone ++ "\n"
        ++ A_body_after_header topic_title topic_content ∧
    build_teaching_response topic_title topic_content cfg2 =
      "Student Emotion: " ++ cfg2.emotion ++ "\nTutor Tone: " ++ cfg2.tone ++ "\n"
        ++ A_body_after_header topic_title topic_content :=
  ⟨build_teaching_response_eq topic_title topic_content cfg1,
   build_teaching_response_eq topic_title topic_content cfg2⟩

set_option maxRecDepth 10000 in
/-- C7: on the concrete one-topic scenario curriculum, variant A yields
exactly 4 records whose texts all contain `Question: Explain Arrays`
and `A sequence of elements.`, and variant B yields exactly the one
record `Question: What is Arrays?\nAnswer: A sequence of elements.`. -/
theorem c7_concrete_scenario :
    (generate_training_data_A scenarioCurriculum).length = 4 ∧
    ((generate_training_data_A scenarioCurriculum).all (fun r =>
      match List.lookup "text" r with
      | some txt => strContainsSub txt "Question: Explain Arrays"
          && strContainsSub txt "A sequence of elements."
      | none => false)) = true ∧
    generate_training_data_B scenarioCurriculum =
      Except.ok [[("text", "Question: What is Arrays?\nAnswer: A sequence of elements.")]] :=
  ⟨rfl, by decide, rfl⟩

/-- C10: every record variant A produces for a module/topic/emotion
triple of the input carries exactly the five keys subject, module,
topic, emotion, text in insertion order; its subject is the constant
`DSA`, its emotion is the profile's name, its module/topic are the
(possibly defaulted) enclosing titles, and its text was built with that
same profile; moreover every record of the output passes the
five-keys/constant-subject check. -/
theorem c10_record_shape (c : Curriculum) (m : Module) (t : Topic) (cfg : EmotionCfg)
    (hm : m ∈ c.modules.getD []) (ht : t ∈ m.topics.getD []) (hcfg : cfg ∈ EMOTIONS) :
    recordA (m.title.getD "Module") t cfg ∈ generate_training_data_A c
    ∧ (recordA (m.title.getD "Module") t cfg).map Prod.fst
        = ["subject", "module", "topic", "emotion", "text"]
    ∧ List.lookup "subject" (recordA (m.title.getD "Module") t cfg) = some "DSA"
    ∧ List.lookup "module" (recordA (m.title.getD "Module") t cfg)
        = some (m.title.getD "Module")
    ∧ List.lookup "topic" (recordA (m.title.getD "Module") t cfg)
        = some (t.title.getD "Topic")
    ∧ List.lookup "emotion" (recordA (m.title.getD "Module") t cfg) = some cfg.emotion
    ∧ List.lookup "text" (recordA (m.title.getD "Module") t cfg)
        = some (build_teaching_response (t.title.getD "Topic")
            (t.content.getD topic_content_default) cfg)
    ∧ ((generate_training_data_A c).all (fun r =>
        (r.map Prod.fst == ["subject", "module", "topic", "emotion", "text"])
          && (List.lookup "subject" r == some "DSA"))) = true :=
  ⟨recordA_mem_genA c m t cfg hm ht hcfg, rfl, rfl, rfl, rfl, rfl, rfl, genA_all_keys c⟩

/-- C10 witness: the record-shape facts instantiated on the scenario
curriculum with the `confused` profile. -/
theorem c10_record_shape_witness :
    (m1Module ∈ scenarioCurriculum.modules.getD []
      ∧ arraysTopic ∈ m1Module.topics.getD []
      ∧ (⟨"confused", "calm, slow, reassuring"⟩ : EmotionCfg) ∈ EMOTIONS)
    ∧ (recordA "M1" arraysTopic ⟨"confused", "calm, slow, reassuring"⟩
          ∈ generate_training_data_A scenarioCurriculum
      ∧ (recordA "M1" arraysTopic ⟨"confused", "calm, slow, reassuring"⟩).map Prod.fst
          = ["subject", "module", "topic", "emotion", "text"]
      ∧ List.lookup "subject" (recordA "M1" arraysTopic ⟨"confused", "calm, slow, reassuring"⟩)
          = some "DSA"
      ∧ List.lookup "module" (recordA "M1" arraysTopic ⟨"confused", "calm, slow, reassuring"⟩)
          = some "M1"
      ∧ List.lookup "topic" (recordA "M1" arraysTopic ⟨"confused", "calm, slow, reassuring"⟩)
          = some "Arrays"
      ∧ List.lookup "emotion" (recordA "M1" arraysTopic ⟨"confused", "calm, slow, reassuring"⟩)
          = some "confused"
      ∧ List.lookup "text" (recordA "M1" arraysTopic ⟨"confused", "calm, slow, reassuring"⟩)
          = some (build_teaching_response "Arrays" "A sequence of elements."
              ⟨"confused", "calm, slow, reassuring"⟩)
      ∧ ((generate_training_data_A scenarioCurriculum).all (fun r =>
          (r.map Prod.fst == ["subject", "module", "topic", "emotion", "text"])
            && (List.lookup "subject" r == some "DSA"))) = true) :=
  ⟨⟨List.mem_singleton.mpr rfl, List.mem_singleton.mpr rfl, List.mem_cons_self _ _⟩,
   c10_record_shape scenarioCurriculum m1Module arraysTopic ⟨"confused", "calm, slow, reassuring"⟩
     (List.mem_singleton.mpr rfl) (List.mem_singleton.mpr rfl) (List.mem_cons_self _ _)⟩

/-- The `pure` of the `Except` monad is `Except.ok`. -/
@[simp] theorem except_pure {α : Type} (a : α) :
    (pure a : Except String α) = Except.ok a := rfl

/-- An errored `Except` computation has no `toOption` value. -/
theorem except_toOption_none {α : Type} {x : Except String α}
    (h : x.toOption = none) : ∃ e, x = Except.error e := by
  cases x with
  | error e => exact ⟨e, rfl⟩
  | ok a => simp [Except.toOption] at h

/-- A topic without a `title` makes variant B's builder raise a
`KeyError` on its very first access. -/
theorem buildTopicRecordsB_title_err (t : Topic) (h : t.title = none) :
    buildTopicRecordsB t = Except.error "KeyError: \x27title\x27" := by
  obtain ⟨tt, tc, kp, ce, vs⟩ := t
  dsimp only at h
  subst h
  rfl

/-- A topic without `content` makes variant B's builder raise a
`KeyError` (on `title` or on `content`, whichever is reached first). -/
theorem buildTopicRecordsB_content_err (t : Topic) (h : t.content = none) :
    (buildTopicRecordsB t).toOption = none := by
  obtain ⟨tt, tc, kp, ce, vs⟩ := t
  dsimp only at h
  subst h
  cases tt with
  | none => rfl
  | some s => rfl

/-- C1 counterexample: on a curriculum whose only topic lacks
`content`, variant B's builder does not fall back — it raises a
`KeyError` and yields no record at all. -/
theorem c1_counterexample :
    generate_training_data_B noContentCurriculum = Except.error "KeyError: \x27content\x27" := rfl

/-- C1 amended: for a topic lacking `content`, variant A's builder
still produces its records, with the documented fallback sentence in
place of the content, and never raises; variant B's builder instead
raises a `KeyError` on such a topic. -/
theorem c1_amended_fallback (module_title : String) (topic : Topic) (cfg : EmotionCfg)
    (h : topic.content = none) :
    List.lookup "text" (recordA module_title topic cfg) =
      some (build_teaching_response (topic.title.getD "Topic") topic_content_default cfg)
    ∧ (buildTopicRecordsB topic).toOption = none := by
  refine ⟨?_, buildTopicRecordsB_content_err topic h⟩
  obtain ⟨tt, tc, kp, ce, vs⟩ := topic
  dsimp only at h
  subst h
  rfl

/-- C1 witness: the amended claim at the concrete `Stacks` topic. -/
theorem c1_amended_fallback_witness :
    noContentTopic.content = none ∧
    (List.lookup "text" (recordA "M1" noContentTopic ⟨"confused", "calm, slow, reassuring"⟩) =
        some (build_teaching_response "Stacks" topic_content_default
          ⟨"confused", "calm, slow, reassuring"⟩)
      ∧ (buildTopicRecordsB noContentTopic).toOption = none) :=
  ⟨rfl, c1_amended_fallback "M1" noContentTopic ⟨"confused", "calm, slow, reassuring"⟩ rfl⟩

/-- When every code example carries `code`, the code-example loop of
variant B succeeds and yields one record per example, in input order. -/
theorem codeRecordsB_ok (topic_title : String) (ces : List CodeExample)
    (h : ∀ ce ∈ ces, ce.code.isSome = true) :
    codeRecordsB topic_title ces = Except.ok (ces.map (fun ce =>
      [("text", "Question: Show me code example for " ++ topic_title
        ++ "\nAnswer:\n```cpp\n" ++ ce.code.getD "" ++ "\n```\nOutput: "
        ++ ce.output.getD "N/A")])) := by
  induction ces with
  | nil => rfl
  | cons ce rest ih =>
    obtain ⟨code, hcode⟩ := Option.isSome_iff_exists.mp (h ce (List.mem_cons_self _ _))
    have ih' := ih (fun x hx => h x (List.mem_cons_of_mem _ hx))
    simp [codeRecordsB, pyGet, hcode, ih']

/-- When every video carries `title` and `youtube_url`, the video loop
of variant B succeeds and yields one record per video, in input
order. -/
theorem videoRecordsB_ok (topic_title : String) (vs : List VideoRef)
    (h : ∀ v ∈ vs, v.title.isSome = true ∧ v.youtube_url.isSome = true) :
    videoRecordsB topic_title vs = Except.ok (vs.map (fun v =>
      [("text", "Question: Where can I learn about " ++ topic_title
        ++ "?\nAnswer: Watch this video: " ++ v.title.getD "" ++ " - "
        ++ v.youtube_url.getD "")])) := by
  induction vs with
  | nil => rfl
  | cons v rest ih =>
    obtain ⟨hvt, hvu⟩ := h v (List.mem_cons_self _ _)
    obtain ⟨vt, hvt'⟩ := Option.isSome_iff_exists.mp hvt
    obtain ⟨vu, hvu'⟩ := Option.isSome_iff_exists.mp hvu
    have ih' := ih (fun x hx => h x (List.mem_cons_of_mem _ hx))
    simp [videoRecordsB, pyGet, hvt', hvu', ih']

/-- C3 counterexample: a topic lacking `content` makes variant B's
builder raise a `KeyError` instead of producing the single record the
claimed count formula (1 + 0 + 0 + 0) demands. -/
theorem c3_counterexample :
    buildTopicRecordsB noContentTopic2 = Except.error "KeyError: \x27content\x27" := rfl

/-- C3 amended: for every topic whose required raising accesses succeed
(`title` and `content` present, every code example carrying `code`,
every video carrying `title` and `youtube_url`), variant B's builder
returns exactly the spec-described list `specTopicRecordsB` — the
definition record, the key-points record (bulleted lines in input
order) when `key_points` is present and non-empty, one record per code
example in input order, one record per video in input order — whose
length is 1 + (1 if key_points present and non-empty else 0) +
len(code_examples) + len(videos). -/
theorem c3_amended_refinement (topic : Topic) (topic_title topic_content : String)
    (ht : topic.title = some topic_title) (hc : topic.content = some topic_content)
    (hce : (topic.code_examples.getD []).all (fun ce => ce.code.isSome) = true)
    (hv : (topic.videos.getD []).all (fun v => v.title.isSome && v.youtube_url.isSome) = true) :
    buildTopicRecordsB topic = Except.ok (specTopicRecordsB topic topic_title topic_content) ∧
    (specTopicRecordsB topic topic_title topic_content).length =
      1 + (match topic.key_points with
           | some points => if points.isEmpty then 0 else 1
           | none => 0)
        + (topic.code_examples.getD []).length + (topic.videos.getD []).length := by
  obtain ⟨tt, tc, kp, ceo, vo⟩ := topic
  dsimp only at ht hc hce hv ⊢
  subst ht
  subst hc
  constructor
  · unfold buildTopicRecordsB specTopicRecordsB
    dsimp only
    simp only [pyGet, except_bind_ok]
    cases ceo with
    | none =>
      dsimp only
      cases vo with
      | none => rfl
      | some vs =>
        dsimp only
        simp only [except_pure, except_bind_ok]
        simp only [Option.getD_some] at hv
        by_cases he2 : vs.isEmpty = true
        · obtain rfl : vs = [] := List.isEmpty_iff.mp he2
          rfl
        · rw [if_neg he2, videoRecordsB_ok topic_title vs (fun x hx =>
            Bool.and_eq_true_iff.mp (List.all_eq_true.mp hv x hx))]
          simp only [except_bind_ok, except_pure, Option.getD_some, Option.getD_none, List.map_nil, List.append_nil, List.nil_append]
    | some ces =>
      dsimp only
      simp only [Option.getD_some] at hce
      by_cases he : ces.isEmpty = true
      · obtain rfl : ces = [] := List.isEmpty_iff.mp he
        rw [if_pos he]
        try simp only [except_pure, except_bind_ok]
        cases vo with
        | none => rfl
        | some vs =>
          try dsimp only
          try simp only [except_pure, except_bind_ok]
          simp only [Option.getD_some] at hv
          by_cases he2 : vs.isEmpty = true
          · obtain rfl : vs = [] := List.isEmpty_iff.mp he2
            rfl
          · rw [if_neg he2, videoRecordsB_ok topic_title vs (fun x hx =>
              Bool.and_eq_true_iff.mp (List.all_eq_true.mp hv x hx))]
            simp only [except_bind_ok, except_pure, Option.getD_some, Option.getD_none, List.map_nil, List.append_nil, List.nil_append]
      · rw [if_neg he, codeRecordsB_ok topic_title ces (fun x hx =>
          List.all_eq_true.mp hce x hx)]
        simp only [except_bind_ok]
        cases vo with
        | none =>
          simp only [except_pure, except_bind_ok, Option.getD_some, Option.getD_none,
            List.map_nil, List.append_nil, List.nil_append]
        | some vs =>
          try dsimp only
          try simp only [except_pure, except_bind_ok]
          simp only [Option.getD_some] at hv
          by_cases he2 : vs.isEmpty = true
          · obtain rfl : vs = [] := List.isEmpty_iff.mp he2
            rfl
          · rw [if_neg he2, videoRecordsB_ok topic_title vs (fun x hx =>
              Bool.and_eq_true_iff.mp (List.all_eq_true.mp hv x hx))]
            simp only [except_bind_ok, except_pure, Option.getD_some, Option.getD_none, List.map_nil, List.append_nil, List.nil_append]
  · unfold specTopicRecordsB
    dsimp only
    cases kp with
    | none =>
      simp
      omega
    | some points =>
      by_cases hp : points.isEmpty = true
      · simp [hp]
        omega
      · simp [hp]
        omega

/-- C3 witness: the amended claim at a concrete topic with two key
points, two code examples and one video (1 + 1 + 2 + 1 = 5 records). -/
theorem c3_amended_refinement_witness :
    (richTopic.title = some "Linked Lists"
      ∧ richTopic.content = some "Nodes chained by pointers."
      ∧ ((richTopic.code_examples.getD []).all (fun ce => ce.code.isSome)) = true
      ∧ ((richTopic.videos.getD []).all (fun v => v.title.isSome && v.youtube_url.isSome)) = true)
    ∧ (buildTopicRecordsB richTopic =
        Except.ok (specTopicRecordsB richTopic "Linked Lists" "Nodes chained by pointers.")
      ∧ (specTopicRecordsB richTopic "Linked Lists" "Nodes chained by pointers.").length
          = 1 + 1 + 2 + 1) :=
  ⟨⟨rfl, rfl, rfl, rfl⟩,
   c3_amended_refinement richTopic "Linked Lists" "Nodes chained by pointers." rfl rfl rfl rfl⟩

/-- A curriculum with no `course_name` (and no modules). -/
def noNameCurriculum : Curriculum := { course_name := none, modules := some [] }

/-- If some topic of the list lacks a `title`, variant B's topic loop
fails (either on that topic or on an earlier failing one). -/
theorem topicsRecordsB_err (ts : List Topic)
    (h : ts.any (fun t => t.title.isNone) = true) :
    (topicsRecordsB ts).toOption = none := by
  induction ts with
  | nil => simp at h
  | cons t rest ih =>
    rw [List.any_cons] at h
    cases hb : buildTopicRecordsB t with
    | error e => simp [topicsRecordsB, hb, Except.toOption]
    | ok recs =>
      have hts : t.title.isNone = false := by
        cases htt : t.title with
        | none =>
          rw [buildTopicRecordsB_title_err t htt] at hb
          cases hb
        | some s => rfl
      rw [hts, Bool.false_or] at h
      cases hr : topicsRecordsB rest with
      | error e2 => simp [topicsRecordsB, hb, hr, Except.toOption]
      | ok recs2 =>
        have h2 := ih h
        rw [hr] at h2
        simp [Except.toOption] at h2

/-- If some module lacks a `title`, or some topic of some module lacks
a `title`, variant B's module loop fails. -/
theorem modulesRecordsB_err (ms : List Module)
    (h : ms.any (fun m =>
        m.title.isNone || (m.topics.getD []).any (fun t => t.title.isNone)) = true) :
    (modulesRecordsB ms).toOption = none := by
  induction ms with
  | nil => simp at h
  | cons m rest ih =>
    rw [List.any_cons] at h
    cases hmt : m.title with
    | none => simp [modulesRecordsB, hmt, pyGet, Except.toOption]
    | some s =>
      have hmt' : m.title.isNone = false := by rw [hmt]; rfl
      rw [hmt', Bool.false_or] at h
      rcases Bool.or_eq_true_iff.mp h with h1 | h2
      · cases ht : topicsRecordsB (m.topics.getD []) with
        | error e => simp [modulesRecordsB, hmt, pyGet, ht, Except.toOption]
        | ok recs =>
          have h3 := topicsRecordsB_err _ h1
          rw [ht] at h3
          simp [Except.toOption] at h3
      · cases ht : topicsRecordsB (m.topics.getD []) with
        | error e => simp [modulesRecordsB, hmt, pyGet, ht, Except.toOption]
        | ok recs =>
          cases hrest : modulesRecordsB rest with
          | error e2 => simp [modulesRecordsB, hmt, pyGet, ht, hrest, Except.toOption]
          | ok recs2 =>
            have h3 := ih h2
            rw [hrest] at h3
            simp [Except.toOption] at h3

/-- C9: when the course name, a module title or a topic title is
absent, variant B's generator raises a `KeyError` (no record list is
produced), whereas variant A substitutes the defaults `DSA Course` (in
its progress print), `Module` and `Topic` (in the records) and still
produces its full output. -/
theorem c9_required_vs_defaults (c : Curriculum) (h : missingRequiredB c = true) :
    (generate_training_data_B c).toOption = none
    ∧ courseNameForPrintA c = c.course_name.getD "DSA Course"
    ∧ (generate_training_data_A c).map projMTE =
        (c.modules.getD []).flatMap (fun m =>
          (m.topics.getD []).flatMap (fun t =>
            ["confused", "frustrated", "neutral", "confident"].map
              (fun e => (some (m.title.getD "Module"), some (t.title.getD "Topic"), some e)))) := by
  refine ⟨?_, rfl, genA_proj c⟩
  unfold missingRequiredB at h
  cases hcn : c.course_name with
  | none =>
    obtain ⟨cn, mods⟩ := c
    dsimp only at hcn
    subst hcn
    rfl
  | some s =>
    rw [hcn] at h
    simp only [Option.isNone_some, Bool.false_or] at h
    obtain ⟨cn, mods⟩ := c
    dsimp only at hcn h ⊢
    subst hcn
    unfold generate_training_data_B
    simp only [pyGet, except_bind_ok]
    exact modulesRecordsB_err _ h

/-- C9 witness: the claim at a curriculum lacking `course_name`. -/
theorem c9_required_vs_defaults_witness :
    missingRequiredB noNameCurriculum = true
    ∧ ((generate_training_data_B noNameCurriculum).toOption = none
      ∧ courseNameForPrintA noNameCurriculum = noNameCurriculum.course_name.getD "DSA Course"
      ∧ (generate_training_data_A noNameCurriculum).map projMTE =
          (noNameCurriculum.modules.getD []).flatMap (fun m =>
            (m.topics.getD []).flatMap (fun t =>
              ["confused", "frustrated", "neutral", "confident"].map
                (fun e => (some (m.title.getD "Module"), some (t.title.getD "Topic"), some e))))) :=
  ⟨rfl, c9_required_vs_defaults noNameCurriculum rfl⟩

/-- C5: whenever the existence check, the load, or the record building
of either variant fails, the write step is never entered: the output
path is untouched (neither truncated nor partially written). -/
theorem c5_no_output_on_early_error (weA weB : Option String) (inA inB : LoadResult)
    (hA : loadBuildFailsA inA = true) (hB : loadBuildFailsB inB = true) :
    (mainA weA inA).written = none ∧ (mainA weA inA).writeStarted = false
    ∧ (mainB weB inB).written = none ∧ (mainB weB inB).writeStarted = false := by
  refine ⟨?_, ?_, ?_, ?_⟩
  · cases inA with
    | missing => rfl
    | malformed m => rfl
    | ok c => simp [loadBuildFailsA] at hA
  · cases inA with
    | missing => rfl
    | malformed m => rfl
    | ok c => simp [loadBuildFailsA] at hA
  · cases inB with
    | missing => rfl
    | malformed m => rfl
    | ok c =>
      unfold loadBuildFailsB at hB
      obtain ⟨e, he⟩ := except_toOption_none (Option.isNone_iff_eq_none.mp hB)
      simp [mainB, he]
  · cases inB with
    | missing => rfl
    | malformed m => rfl
    | ok c =>
      unfold loadBuildFailsB at hB
      obtain ⟨e, he⟩ := except_toOption_none (Option.isNone_iff_eq_none.mp hB)
      simp [mainB, he]

/-- C5 witness: both drivers on a missing input file. -/
theorem c5_no_output_on_early_error_witness :
    (loadBuildFailsA LoadResult.missing = true ∧ loadBuildFailsB LoadResult.missing = true)
    ∧ ((mainA none LoadResult.missing).written = none
      ∧ (mainA none LoadResult.missing).writeStarted = false
      ∧ (mainB none LoadResult.missing).written = none
      ∧ (mainB none LoadResult.missing).writeStarted = false) :=
  ⟨⟨rfl, rfl⟩, c5_no_output_on_early_error none none LoadResult.missing LoadResult.missing rfl rfl⟩

/-- C6: an exception escaping the load/build steps of either variant is
caught at the single top-level boundary and reported as
`❌ ERROR: {message}`; a write-step exception is caught by the same
handler.  The drivers are total functions into `DriverOutcome`, i.e.
they return normally rather than propagating. -/
theorem c6_top_level_catch (weA weB : Option String) (inA inB : LoadResult)
    (msgA msgB wmsg : String) (cA cB : Curriculum)
    (hA : raisesA inA = some msgA) (hB : raisesB inB = some msgB)
    (hok : (generate_training_data_B cB).toOption.isSome = true) :
    (mainA weA inA).errorPrinted = some ("❌ ERROR: " ++ msgA)
    ∧ (mainB weB inB).errorPrinted = some ("❌ ERROR: " ++ msgB)
    ∧ (mainA (some wmsg) (LoadResult.ok cA)).errorPrinted = some ("❌ ERROR: " ++ wmsg)
    ∧ (mainB (some wmsg) (LoadResult.ok cB)).errorPrinted = some ("❌ ERROR: " ++ wmsg) := by
  refine ⟨?_, ?_, rfl, ?_⟩
  · cases inA with
    | missing => simp [raisesA] at hA
    | malformed m =>
      obtain rfl : m = msgA := by simpa [raisesA] using hA
      rfl
    | ok c => simp [raisesA] at hA
  · cases inB with
    | missing =>
      obtain rfl : fnf_message = msgB := by simpa [raisesB] using hB
      rfl
    | malformed m =>
      obtain rfl : m = msgB := by simpa [raisesB] using hB
      rfl
    | ok c =>
      simp only [raisesB] at hB
      cases hg : generate_training_data_B c with
      | error e =>
        rw [hg] at hB
        obtain rfl : e = msgB := by simpa using hB
        simp [mainB, hg]
      | ok recs => rw [hg] at hB; simp at hB
  · cases hg : generate_training_data_B cB with
    | error e => rw [hg] at hok; simp [Except.toOption] at hok
    | ok recs => simp [mainB, hg]

/-- C6 witness: a malformed load in variant A, a missing file in
variant B, and a write failure in both after a successful build. -/
theorem c6_top_level_catch_witness :
    (raisesA (LoadResult.malformed "Expecting value: line 1 column 1 (char 0)")
        = some "Expecting value: line 1 column 1 (char 0)"
      ∧ raisesB LoadResult.missing = some fnf_message
      ∧ (generate_training_data_B scenarioCurriculum).toOption.isSome = true)
    ∧ ((mainA none (LoadResult.malformed "Expecting value: line 1 column 1 (char 0)")).errorPrinted
        = some ("❌ ERROR: " ++ "Expecting value: line 1 column 1 (char 0)")
      ∧ (mainB none LoadResult.missing).errorPrinted = some ("❌ ERROR: " ++ fnf_message)
      ∧ (mainA (some "No space left on device") (LoadResult.ok scenarioCurriculum)).errorPrinted
          = some ("❌ ERROR: " ++ "No space left on device")
      ∧ (mainB (some "No space left on device") (LoadResult.ok scenarioCurriculum)).errorPrinted
          = some ("❌ ERROR: " ++ "No space left on device")) :=
  ⟨⟨rfl, rfl, rfl⟩,
   c6_top_level_catch none none
     (LoadResult.malformed "Expecting value: line 1 column 1 (char 0)") LoadResult.missing
     "Expecting value: line 1 column 1 (char 0)" fnf_message "No space left on device"
     scenarioCurriculum scenarioCurriculum rfl rfl rfl⟩

/-- C8 counterexample: when variant A's load fails on malformed JSON,
the handler does surface a stack trace — `traceback.print_exc()` runs. -/
theorem c8_counterexample :
    (mainA none (LoadResult.malformed "Expecting value: line 2 column 1 (char 1)")).tracebackPrinted
      = true := rfl

/-- C8 amended: when variant A's load raises (malformed JSON), the
handler prints the error message and additionally prints the stack
trace via `traceback.print_exc()`; variant B's handler prints the
message only. -/
theorem c8_amended_message_and_traceback (we : Option String) (msg : String) :
    (mainA we (LoadResult.malformed msg)).errorPrinted = some ("❌ ERROR: " ++ msg)
    ∧ (mainA we (LoadResult.malformed msg)).tracebackPrinted = true
    ∧ (mainB we (LoadResult.malformed msg)).tracebackPrinted = false :=
  ⟨rfl, rfl, rfl⟩

end DSAGen
